import Mathlib

/-!
Shallow embedding of `src/shadowsocks/mdb/models.py` (classes `User` and
`UserServer`).

The process-wide class attributes of `UserServer`
(`__running_servers__`, `__user_metrics__`, `__user_limiters__`,
`__active_user_ids__`) together with the persisted `UserServer` rows form
the mutable state.  Python `defaultdict(dict)` is modelled by an ordered
association list whose entries are created on first access (also on a pure
read — this side effect of `defaultdict` is preserved deliberately).
Listener handles (`asyncio` server objects) are modelled by numeric
identities allocated from a counter; `close()` calls are recorded in a log
so that "closed exactly once" is expressible.  A raised Python exception is
modelled by a `Bool` flag returned next to the state reached at the raise
point.
-/

set_option autoImplicit false

namespace Aioshadowsocks

/-- One inner dict of `__running_servers__`: the keys `"tcp"` and `"udp"`
map to listener handles; a missing key is `none`. -/
structure Entry where
  tcp : Option Nat
  udp : Option Nat
  deriving DecidableEq, Repr

/-- One inner dict of `__user_metrics__` as produced by `init_new_metric`:
keys `upload_traffic`, `download_traffic`, `ip_list`.  The Python `set` of
peer IPs is modelled as a duplicate-free list in insertion order. -/
structure Metric where
  uploadTraffic : Nat
  downloadTraffic : Nat
  ipList : List String
  deriving DecidableEq, Repr

/-- One inner dict of `__user_limiters__`: key `"traffic"` holds a
`TrafficRateLimit` instance (modelled by its `speed_limit` seed; its
internals live outside `src/`), key `"tcp"` holds a `TcpConnRateLimit`
instance (modelled by its observable `tcp_conn_num`). -/
structure LimEntry where
  traffic : Option Nat
  tcp : Option Nat
  deriving DecidableEq, Repr

/-- The persisted `UserServer` row: the live snapshot
{port, method, password, enable} saved by `init_server`. -/
structure Snapshot where
  port : Nat
  method : String
  password : String
  enable : Bool
  deriving DecidableEq, Repr

/-- A desired tenant configuration (a `User` row). -/
structure UserConf where
  user_id : Nat
  port : Nat
  method : String
  password : String
  enable : Bool
  speed_limit : Nat
  deriving DecidableEq, Repr

/-- The process-wide mutable state of `UserServer`. -/
structure RegState where
  runningServers : List (Nat × Entry)
  userMetrics : List (Nat × Option Metric)
  userLimiters : List (Nat × LimEntry)
  activeUserIds : List Nat
  snapshots : List (Nat × Snapshot)
  closedLog : List Nat
  nextHandle : Nat
  deriving DecidableEq, Repr

/-- The empty process state (no row, no dict entry, nothing closed). -/
def initState : RegState :=
  ⟨[], [], [], [], [], [], 0⟩

/-- Lookup in an ordered association list (Python dict read). -/
def alookup {α : Type} : List (Nat × α) → Nat → Option α
  | [], _ => none
  | (k, v) :: t, k0 => if k = k0 then some v else alookup t k0

/-- Write in an ordered association list: replace in place if the key is
present, append otherwise (Python dict write order). -/
def aset {α : Type} : List (Nat × α) → Nat → α → List (Nat × α)
  | [], k0, v0 => [(k0, v0)]
  | (k, v) :: t, k0, v0 =>
    if k = k0 then (k, v0) :: t else (k, v) :: aset t k0 v0

/-- Key removal (`dict.pop`). -/
def aremove {α : Type} : List (Nat × α) → Nat → List (Nat × α)
  | [], _ => []
  | (k, v) :: t, k0 =>
    if k = k0 then aremove t k0 else (k, v) :: aremove t k0

/-- `UserServer.is_running`: `self.user_id in self.__running_servers__`. -/
def isRunning (s : RegState) (uid : Nat) : Bool :=
  (alookup s.runningServers uid).isSome

/-- `self.__running_servers__[self.user_id]`: a `defaultdict(dict)` read —
creates an empty inner dict when the key is absent. -/
def getEntry (s : RegState) (uid : Nat) : Entry × RegState :=
  match alookup s.runningServers uid with
  | some e => (e, s)
  | none =>
    (⟨none, none⟩,
      { s with runningServers := aset s.runningServers uid ⟨none, none⟩ })

/-- The `tcp_server` property getter:
`self.__running_servers__[self.user_id].get("tcp")`. -/
def getTcpServer (s : RegState) (uid : Nat) : Option Nat × RegState :=
  let p := getEntry s uid
  (p.1.tcp, p.2)

/-- The `udp_server` property getter. -/
def getUdpServer (s : RegState) (uid : Nat) : Option Nat × RegState :=
  let p := getEntry s uid
  (p.1.udp, p.2)

/-- Pure view of the registered TCP handle (no `defaultdict` side effect);
used only to state properties. -/
def tcpHandleOf (s : RegState) (uid : Nat) : Option Nat :=
  match alookup s.runningServers uid with
  | some e => e.tcp
  | none => none

/-- Pure view of the registered UDP handle. -/
def udpHandleOf (s : RegState) (uid : Nat) : Option Nat :=
  match alookup s.runningServers uid with
  | some e => e.udp
  | none => none

/-- Whether the tenant has at least one live handle (pure view). -/
def hasHandle (s : RegState) (uid : Nat) : Bool :=
  match alookup s.runningServers uid with
  | some e => e.tcp.isSome || e.udp.isSome
  | none => false

/-- The `tcp_server` setter: `if self.tcp_server: self.tcp_server.close()`
then `self.__running_servers__[self.user_id]["tcp"] = server`. -/
def setTcpServer (s : RegState) (uid : Nat) (h : Nat) : RegState :=
  let g := getTcpServer s uid
  let s2 := match g.1 with
    | some h0 => { g.2 with closedLog := g.2.closedLog ++ [h0] }
    | none => g.2
  let p := getEntry s2 uid
  { p.2 with runningServers := aset p.2.runningServers uid { p.1 with tcp := some h } }

/-- The `udp_server` setter. -/
def setUdpServer (s : RegState) (uid : Nat) (h : Nat) : RegState :=
  let g := getUdpServer s uid
  let s2 := match g.1 with
    | some h0 => { g.2 with closedLog := g.2.closedLog ++ [h0] }
    | none => g.2
  let p := getEntry s2 uid
  { p.2 with runningServers := aset p.2.runningServers uid { p.1 with udp := some h } }

/-- `UserServer.close_server`: return if not registered; otherwise pop the
entry, then `server_data["tcp"].close()` and `server_data["udp"].close()`.
A missing `"tcp"`/`"udp"` key raises `KeyError` (flag `true`), after the
pop already happened. -/
def closeServer (s : RegState) (uid : Nat) : RegState × Bool :=
  match alookup s.runningServers uid with
  | none => (s, false)
  | some e =>
    let s1 := { s with runningServers := aremove s.runningServers uid }
    match e.tcp with
    | none => (s1, true)
    | some ht =>
      let s2 := { s1 with closedLog := s1.closedLog ++ [ht] }
      match e.udp with
      | none => (s2, true)
      | some hu => ({ s2 with closedLog := s2.closedLog ++ [hu] }, false)

/-- `UserServer.init_new_metric()`:
`{"upload_traffic": 0, "download_traffic": 0, "ip_list": set()}`. -/
def initNewMetric : Metric :=
  ⟨0, 0, []⟩

/-- The `metrics` setter:
`self.__user_metrics__[self.user_id].update(data)` where `data` carries all
three keys, so the inner dict becomes fully populated. -/
def setMetrics (s : RegState) (uid : Nat) (m : Metric) : RegState :=
  { s with userMetrics := aset s.userMetrics uid (some m) }

/-- Python `set.add` on the IP set, modelled on the insertion-ordered
duplicate-free list. -/
def addIp (l : List String) (a : String) : List String :=
  if a ∈ l then l else l ++ [a]

/-- `UserServer.record_traffic`: `self.metrics["upload_traffic"] += used_u`
and `self.metrics["download_traffic"] += used_d`.  The `metrics` getter is
a `defaultdict` read: on a tenant with no metrics record it creates an
empty inner dict, and the `+=` then raises `KeyError` (flag `true`). -/
def recordTraffic (s : RegState) (uid usedU usedD : Nat) : RegState × Bool :=
  match alookup s.userMetrics uid with
  | some (some m) =>
    let m2 : Metric := ⟨m.uploadTraffic + usedU, m.downloadTraffic + usedD, m.ipList⟩
    ({ s with userMetrics := aset s.userMetrics uid (some m2) }, false)
  | some none => (s, true)
  | none => ({ s with userMetrics := aset s.userMetrics uid none }, true)

/-- `UserServer.record_ip`: no-op on a falsy peername, otherwise
`self.metrics["ip_list"].add(peername[0])` — same `KeyError` behaviour as
`record_traffic` on an uninitialised record. -/
def recordIp (s : RegState) (uid : Nat) (peername : Option (String × Nat)) :
    RegState × Bool :=
  match peername with
  | none => (s, false)
  | some (addr, _) =>
    match alookup s.userMetrics uid with
    | some (some m) =>
      let m2 : Metric := { m with ipList := addIp m.ipList addr }
      ({ s with userMetrics := aset s.userMetrics uid (some m2) }, false)
    | some none => (s, true)
    | none => ({ s with userMetrics := aset s.userMetrics uid none }, true)

/-- The `traffic_limiter` setter:
`self.__user_limiters__[self.user_id]["traffic"] = limiter`. -/
def setTrafficLimiter (s : RegState) (uid : Nat) (speed : Nat) : RegState :=
  let e := (alookup s.userLimiters uid).getD ⟨none, none⟩
  { s with userLimiters := aset s.userLimiters uid { e with traffic := some speed } }

/-- The `tcp_limiter` setter:
`self.__user_limiters__[self.user_id]["tcp"] = limiter`.  A fresh
`TcpConnRateLimit` instance is installed; modelled from the spec (the
limiter class lives outside `src/`) by its connection count starting at 0. -/
def setTcpLimiter (s : RegState) (uid : Nat) : RegState :=
  let e := (alookup s.userLimiters uid).getD ⟨none, none⟩
  { s with userLimiters := aset s.userLimiters uid { e with tcp := some 0 } }

/-- The `tcp_limiter` property getter:
`self.__user_limiters__[self.user_id].get("tcp")` — a `defaultdict` read
that creates an empty inner dict when the tenant key is absent. -/
def getTcpLimiter (s : RegState) (uid : Nat) : Option Nat × RegState :=
  match alookup s.userLimiters uid with
  | some e => (e.tcp, s)
  | none =>
    (none, { s with userLimiters := aset s.userLimiters uid ⟨none, none⟩ })

/-- `UserServer.incr_tcp_conn_num`:
`self.tcp_limiter.incr_tcp_conn_num(num)`; raises (`AttributeError`) when
no TCP limiter is installed.  The limiter method itself is modelled from
the spec (`incr(delta)` adds to the live count); its class lives outside
`src/`. -/
def incrTcpConnNum (s : RegState) (uid n : Nat) : RegState × Bool :=
  match getTcpLimiter s uid with
  | (some c, s1) =>
    let e := (alookup s1.userLimiters uid).getD ⟨none, none⟩
    ({ s1 with userLimiters := aset s1.userLimiters uid { e with tcp := some (c + n) } },
      false)
  | (none, s1) => (s1, true)

/-- `UserServer.check_user_server`: for each of `method`, `port`,
`password` in order, if the live snapshot's field differs from the desired
user's, or `user.enable is False`, call `close_server` and return. -/
def checkUserServer (s : RegState) (snap : Snapshot) (u : UserConf) :
    RegState × Bool :=
  if snap.method ≠ u.method ∨ u.enable = false then closeServer s u.user_id
  else if snap.port ≠ u.port ∨ u.enable = false then closeServer s u.user_id
  else if snap.password ≠ u.password ∨ u.enable = false then closeServer s u.user_id
  else (s, false)

/-- The success path of `init_server` after both binds: two fresh handles
(`s.nextHandle` and `s.nextHandle + 1`) go through the two setters, fresh
limiters and zeroed metrics are installed and the snapshot is persisted
(`update_from_dict` + `save`). -/
def startListeners (s : RegState) (u : UserConf) : RegState :=
  let htcp := s.nextHandle
  let hudp := s.nextHandle + 1
  let s2 := { s with nextHandle := s.nextHandle + 2 }
  let s3 := setTcpServer s2 u.user_id htcp
  let s4 := setUdpServer s3 u.user_id hudp
  let s5 := setTrafficLimiter s4 u.user_id u.speed_limit
  let s6 := setTcpLimiter s5 u.user_id
  let s7 := setMetrics s6 u.user_id initNewMetric
  let snap2 : Snapshot := ⟨u.port, u.method, u.password, u.enable⟩
  { s7 with snapshots := aset s7.snapshots u.user_id snap2 }

/-- `UserServer.init_server(user)`.  `snap` is the persisted live snapshot
the instance carries (`getattr(self, field)`); `bindOk` is the outcome of
the only fallible step, binding the TCP listener and UDP endpoint (an
`OSError` is caught and logged).  The returned flag records an uncaught
exception (only possible from `close_server`'s `KeyError`). -/
def initServer (s : RegState) (snap : Snapshot) (u : UserConf) (bindOk : Bool) :
    RegState × Bool :=
  let c := if isRunning s u.user_id then checkUserServer s snap u else (s, false)
  if c.2 then (c.1, true)
  else if isRunning c.1 u.user_id || !u.enable then (c.1, false)
  else if !bindOk then (c.1, false)
  else (startListeners c.1 u, false)

/-- One entry of the flush payload:
`{"user_id", "upload_traffic", "download_traffic", "ip_list", "tcp_conn_num"}`. -/
structure Report where
  user_id : Nat
  upload_traffic : Nat
  download_traffic : Nat
  ip_list : List String
  tcp_conn_num : Nat
  deriving DecidableEq, Repr

/-- The payload-building loop of `flush_metrics_to_remote`: iterate
`__user_metrics__.items()`; for each tenant with positive
`upload_traffic + download_traffic`, read
`cls.get_by_id(user_id).tcp_limiter.tcp_conn_num` and append a report and
the id to the reset list.  `none` in the second component models a raised
exception: `KeyError` on an empty metrics dict, `DoesNotExist` from
`get_by_id`, or `AttributeError` when `tcp_limiter` is `None`. -/
def flushLoop : List (Nat × Option Metric) → RegState →
    RegState × Option (List Report × List Nat)
  | [], s => (s, some ([], []))
  | (uid, mv) :: rest, s =>
    match mv with
    | none => (s, none)
    | some m =>
      if m.uploadTraffic + m.downloadTraffic > 0 then
        match alookup s.snapshots uid with
        | none => (s, none)
        | some _ =>
          match getTcpLimiter s uid with
          | (none, s1) => (s1, none)
          | (some c, s1) =>
            match flushLoop rest s1 with
            | (s2, none) => (s2, none)
            | (s2, some (reps, ids)) =>
              (s2, some (⟨uid, m.uploadTraffic, m.downloadTraffic, m.ipList, c⟩ :: reps,
                uid :: ids))
      else flushLoop rest s

/-- The post-success reset loop:
`cls.__user_metrics__[user_id].update(cls.init_new_metric())` for each
reported tenant. -/
def resetMetrics : List (Nat × Option Metric) → List Nat →
    List (Nat × Option Metric)
  | ms, [] => ms
  | ms, uid :: rest => resetMetrics (aset ms uid (some initNewMetric)) rest

/-- Result of `flush_metrics_to_remote`: the state reached, the payload of
the one `post` request when it was issued, and whether an exception
escaped (a build error, or the sink call failing). -/
structure FlushResult where
  state : RegState
  payload : Option (List Report)
  raised : Bool
  deriving DecidableEq, Repr

/-- `UserServer.flush_metrics_to_remote(url)`.  `sinkOk` is the outcome of
the `http_session.request("post", ...)` call.  On sink success every
reported tenant's counters are reset and `__active_user_ids__` becomes the
reported id list; on sink failure the exception propagates before any
reset. -/
def flushMetricsToRemote (s : RegState) (sinkOk : Bool) : FlushResult :=
  match flushLoop s.userMetrics s with
  | (s1, none) => ⟨s1, none, true⟩
  | (s1, some (reps, ids)) =>
    if sinkOk then
      let s2 := { s1 with userMetrics := resetMetrics s1.userMetrics ids, activeUserIds := ids }
      ⟨s2, some reps, false⟩
    else ⟨s1, some reps, true⟩

/-- The summation loop of `get_total_connection_count`: over the
`UserServer` rows whose `user_id` is in `__active_user_ids__`, sum
`us.tcp_limiter.tcp_conn_num` (`none` models the `AttributeError` raised
when a selected row has no TCP limiter). -/
def totalConnLoop : List (Nat × Snapshot) → List Nat → RegState →
    Option Nat × RegState
  | [], _, s => (some 0, s)
  | (uid, _) :: rest, active, s =>
    if uid ∈ active then
      match getTcpLimiter s uid with
      | (none, s1) => (none, s1)
      | (some c, s1) =>
        match totalConnLoop rest active s1 with
        | (none, s2) => (none, s2)
        | (some n, s2) => (some (c + n), s2)
    else totalConnLoop rest active s

/-- `UserServer.get_total_connection_count()`. -/
def getTotalConnectionCount (s : RegState) : Option Nat × RegState :=
  totalConnLoop s.snapshots s.activeUserIds s

/-- One step of `User.init_user_servers`: `UserServer.get_or_create`
(creating the row from the user's data only when absent, keeping a stale
row as is) followed by the `init_server` task for that user. -/
def sweepOne (s : RegState) (u : UserConf) (bindOk : Bool) : RegState :=
  match alookup s.snapshots u.user_id with
  | some snap => (initServer s snap u bindOk).1
  | none =>
    let snap : Snapshot := ⟨u.port, u.method, u.password, u.enable⟩
    let s1 := { s with snapshots := aset s.snapshots u.user_id snap }
    (initServer s1 snap u bindOk).1

/-- `User.init_user_servers`: the bulk sweep scheduling `init_server` for
every user (each task runs regardless of its siblings' outcomes). -/
def sweep : RegState → List (UserConf × Bool) → RegState
  | s, [] => s
  | s, (u, b) :: rest => sweep (sweepOne s u b) rest

/-- Pure view of the per-tenant metrics record. -/
def metricsOf (s : RegState) (uid : Nat) : Option (Option Metric) :=
  alookup s.userMetrics uid

/-- Whether a `TcpConnRateLimit` instance is installed for the tenant. -/
def hasTcpLimiter (s : RegState) (uid : Nat) : Bool :=
  match alookup s.userLimiters uid with
  | some e => e.tcp.isSome
  | none => false

/-- The installed TCP limiter's `tcp_conn_num`, defaulting to 0. -/
def tcpConnOf (s : RegState) (uid : Nat) : Nat :=
  match alookup s.userLimiters uid with
  | some e => e.tcp.getD 0
  | none => 0

/-- The tenant ids carried by metrics records with strictly positive
`upload_traffic + download_traffic`, in dict order: the ids reported and
reset by a successful flush. -/
def posIds (l : List (Nat × Option Metric)) : List Nat :=
  (l.filter fun p =>
    match p.2 with
    | some m => decide (0 < m.uploadTraffic + m.downloadTraffic)
    | none => false).map fun p => p.1

/-- The payload a flush builds from the metrics records in `l`, reading
connection counts from `s` (pure view of `flushLoop`'s output). -/
def reportsOf (s : RegState) : List (Nat × Option Metric) → List Report
  | [] => []
  | (uid, some m) :: rest =>
    if 0 < m.uploadTraffic + m.downloadTraffic then
      ⟨uid, m.uploadTraffic, m.downloadTraffic, m.ipList, tcpConnOf s uid⟩ :: reportsOf s rest
    else reportsOf s rest
  | (_, none) :: rest => reportsOf s rest

/-- A public operation on the tenant manager: the registry surface
(handle getters/setters, stop), the lifecycle entry point, the metrics
recorders, flush, the connection-count increment and the total-connection
query. -/
inductive Op where
  | readTcp (uid : Nat)
  | readUdp (uid : Nat)
  | installTcp (uid h : Nat)
  | installUdp (uid h : Nat)
  | stop (uid : Nat)
  | start (snap : Snapshot) (u : UserConf) (bindOk : Bool)
  | traffic (uid a b : Nat)
  | peer (uid : Nat) (p : Option (String × Nat))
  | flushOp (sinkOk : Bool)
  | incrConn (uid n : Nat)
  | totalConn
  deriving DecidableEq, Repr

/-- The state reached by one public operation (raised exceptions do not
roll the state back). -/
def applyOp (s : RegState) : Op → RegState
  | .readTcp uid => (getTcpServer s uid).2
  | .readUdp uid => (getUdpServer s uid).2
  | .installTcp uid h => setTcpServer s uid h
  | .installUdp uid h => setUdpServer s uid h
  | .stop uid => (closeServer s uid).1
  | .start snap u b => (initServer s snap u b).1
  | .traffic uid a b => (recordTraffic s uid a b).1
  | .peer uid p => (recordIp s uid p).1
  | .flushOp ok => (flushMetricsToRemote s ok).state
  | .incrConn uid n => (incrTcpConnNum s uid n).1
  | .totalConn => (getTotalConnectionCount s).2

/-- The state after a sequence of public operations. -/
def applyOps : RegState → List Op → RegState
  | s, [] => s
  | s, op :: rest => applyOps (applyOp s op) rest

/-- An operation is guarded when it is not a read of the `tcp_server` or
`udp_server` getter on a tenant that is not live (such a read is the one
public operation whose `defaultdict` side effect creates an empty registry
entry). -/
def safeOp (s : RegState) : Op → Bool
  | .readTcp uid => isRunning s uid
  | .readUdp uid => isRunning s uid
  | _ => true

/-- Every operation of the sequence is guarded in the state it runs in. -/
def safeOps : RegState → List Op → Bool
  | _, [] => true
  | s, op :: rest => safeOp s op && safeOps (applyOp s op) rest

/-- Every registry entry carries at least one handle. -/
def WFhandles (s : RegState) : Prop :=
  ∀ uid e, alookup s.runningServers uid = some e →
    (e.tcp.isSome || e.udp.isSome) = true

/-- A live tenant with both handles registered, an initialised metrics
record, both limiters and a persisted snapshot (used to instantiate
theorems with hypotheses). -/
def demoLiveState : RegState :=
  ⟨[(1, ⟨some 5, some 6⟩)], [(1, some ⟨0, 0, []⟩)], [(1, ⟨some 0, some 0⟩)], [],
    [(1, ⟨8000, "aes-256-gcm", "pw", true⟩)], [], 7⟩

/-- Two tenants, tenant 1 with `upload=100, download=0`, tenant 2 with
zero traffic; both with limiters and snapshots. -/
def demoTrafficState : RegState :=
  ⟨[(1, ⟨some 0, some 1⟩)], [(1, some ⟨100, 0, ["10.0.0.9"]⟩), (2, some ⟨0, 0, []⟩)],
    [(1, ⟨some 0, some 3⟩), (2, ⟨some 0, some 0⟩)], [2],
    [(1, ⟨8000, "aes-256-gcm", "pw", true⟩), (2, ⟨8001, "aes-256-gcm", "pw2", true⟩)], [], 2⟩

/-- Two tenants, both with zero traffic. -/
def demoZeroState : RegState :=
  ⟨[(1, ⟨some 0, some 1⟩)], [(1, some ⟨0, 0, []⟩), (2, some ⟨0, 0, []⟩)],
    [(1, ⟨some 0, some 3⟩), (2, ⟨some 0, some 0⟩)], [2],
    [(1, ⟨8000, "aes-256-gcm", "pw", true⟩), (2, ⟨8001, "aes-256-gcm", "pw2", true⟩)], [], 2⟩

theorem alookup_aset_self {α : Type} (l : List (Nat × α)) (k : Nat) (v : α) :
    alookup (aset l k v) k = some v := by
  induction l with
  | nil => simp [aset, alookup]
  | cons p t ih =>
    by_cases h : p.1 = k
    · simp [aset, alookup, h]
    · simp [aset, alookup, h, ih]

theorem alookup_aset_ne {α : Type} (l : List (Nat × α)) (k k0 : Nat) (v : α)
    (h : k ≠ k0) : alookup (aset l k0 v) k = alookup l k := by
  induction l with
  | nil => simp [aset, alookup, Ne.symm h]
  | cons p t ih =>
    by_cases hp : p.1 = k0
    · simp [aset, alookup, hp, Ne.symm h]
    · simp only [aset, hp, if_false, alookup]
      by_cases hk : p.1 = k
      · simp [hk]
      · simp [hk, ih]

theorem aset_aset {α : Type} (l : List (Nat × α)) (k : Nat) (a b : α) :
    aset (aset l k a) k b = aset l k b := by
  induction l with
  | nil => simp [aset]
  | cons p t ih =>
    by_cases h : p.1 = k
    · simp [aset, h]
    · simp [aset, h, ih]

theorem alookup_aremove_self {α : Type} (l : List (Nat × α)) (k : Nat) :
    alookup (aremove l k) k = none := by
  induction l with
  | nil => simp [aremove, alookup]
  | cons p t ih =>
    by_cases h : p.1 = k
    · simp [aremove, h, ih]
    · simp [aremove, alookup, h, ih]

theorem alookup_aremove_ne {α : Type} (l : List (Nat × α)) (k k0 : Nat)
    (h : k ≠ k0) : alookup (aremove l k0) k = alookup l k := by
  induction l with
  | nil => simp [aremove]
  | cons p t ih =>
    by_cases hp : p.1 = k0
    · simp [aremove, hp, ih, alookup, Ne.symm h]
    · simp only [aremove, hp, if_false, alookup]
      by_cases hk : p.1 = k
      · simp [hk]
      · simp [hk, ih]

theorem aremove_of_alookup_none {α : Type} (l : List (Nat × α)) (k : Nat)
    (h : alookup l k = none) : aremove l k = l := by
  induction l with
  | nil => simp [aremove]
  | cons p t ih =>
    by_cases hp : p.1 = k
    · simp [alookup, hp] at h
    · simp only [alookup, hp, if_false] at h
      simp [aremove, hp, ih h]

theorem getEntry_of_isRunning (s : RegState) (uid : Nat)
    (h : isRunning s uid = true) : (getEntry s uid).2 = s := by
  unfold isRunning at h
  unfold getEntry
  cases hl : alookup s.runningServers uid with
  | some e => rfl
  | none => rw [hl] at h; simp at h

theorem setTcpServer_lookup_self (s : RegState) (uid h : Nat) :
    alookup (setTcpServer s uid h).runningServers uid
      = some ⟨some h, udpHandleOf s uid⟩ := by
  cases hl : alookup s.runningServers uid with
  | some e =>
    obtain ⟨et, eu⟩ := e
    cases et <;>
      simp [setTcpServer, getTcpServer, getEntry, udpHandleOf, hl, alookup_aset_self]
  | none =>
    simp [setTcpServer, getTcpServer, getEntry, udpHandleOf, hl,
      alookup_aset_self, aset_aset]

theorem setUdpServer_lookup_self (s : RegState) (uid h : Nat) :
    alookup (setUdpServer s uid h).runningServers uid
      = some ⟨tcpHandleOf s uid, some h⟩ := by
  cases hl : alookup s.runningServers uid with
  | some e =>
    obtain ⟨et, eu⟩ := e
    cases eu <;>
      simp [setUdpServer, getUdpServer, getEntry, tcpHandleOf, hl, alookup_aset_self]
  | none =>
    simp [setUdpServer, getUdpServer, getEntry, tcpHandleOf, hl,
      alookup_aset_self, aset_aset]

theorem setTcpServer_lookup_ne (s : RegState) (uid h t : Nat) (hne : t ≠ uid) :
    alookup (setTcpServer s uid h).runningServers t
      = alookup s.runningServers t := by
  cases hl : alookup s.runningServers uid with
  | some e =>
    obtain ⟨et, eu⟩ := e
    cases et <;>
      simp [setTcpServer, getTcpServer, getEntry, hl, alookup_aset_ne _ _ _ _ hne]
  | none =>
    simp [setTcpServer, getTcpServer, getEntry, hl, alookup_aset_self,
      alookup_aset_ne _ _ _ _ hne]

theorem setUdpServer_lookup_ne (s : RegState) (uid h t : Nat) (hne : t ≠ uid) :
    alookup (setUdpServer s uid h).runningServers t
      = alookup s.runningServers t := by
  cases hl : alookup s.runningServers uid with
  | some e =>
    obtain ⟨et, eu⟩ := e
    cases eu <;>
      simp [setUdpServer, getUdpServer, getEntry, hl, alookup_aset_ne _ _ _ _ hne]
  | none =>
    simp [setUdpServer, getUdpServer, getEntry, hl, alookup_aset_self,
      alookup_aset_ne _ _ _ _ hne]

theorem setTcpServer_closedLog (s : RegState) (uid h : Nat) :
    (setTcpServer s uid h).closedLog
      = s.closedLog ++ (tcpHandleOf s uid).toList := by
  cases hl : alookup s.runningServers uid with
  | some e =>
    obtain ⟨et, eu⟩ := e
    cases et <;>
      simp [setTcpServer, getTcpServer, getEntry, tcpHandleOf, hl, alookup_aset_self]
  | none =>
    simp [setTcpServer, getTcpServer, getEntry, tcpHandleOf, hl, alookup_aset_self]

theorem setUdpServer_closedLog (s : RegState) (uid h : Nat) :
    (setUdpServer s uid h).closedLog
      = s.closedLog ++ (udpHandleOf s uid).toList := by
  cases hl : alookup s.runningServers uid with
  | some e =>
    obtain ⟨et, eu⟩ := e
    cases eu <;>
      simp [setUdpServer, getUdpServer, getEntry, udpHandleOf, hl, alookup_aset_self]
  | none =>
    simp [setUdpServer, getUdpServer, getEntry, udpHandleOf, hl, alookup_aset_self]

theorem closeServer_runningServers (s : RegState) (uid : Nat) :
    (closeServer s uid).1.runningServers = aremove s.runningServers uid := by
  cases hl : alookup s.runningServers uid with
  | some e =>
    obtain ⟨et, eu⟩ := e
    cases et <;> cases eu <;> simp [closeServer, hl]
  | none => simp [closeServer, hl, aremove_of_alookup_none _ _ hl]

theorem isRunning_closeServer_self (s : RegState) (uid : Nat) :
    isRunning (closeServer s uid).1 uid = false := by
  simp [isRunning, closeServer_runningServers, alookup_aremove_self]

theorem closeServer_of_entry (s : RegState) (uid ht hu : Nat)
    (hl : alookup s.runningServers uid = some ⟨some ht, some hu⟩) :
    closeServer s uid
      = ({ s with runningServers := aremove s.runningServers uid, closedLog := s.closedLog ++ [ht] ++ [hu] }, false) := by
  simp [closeServer, hl]

theorem recordTraffic_runningServers (s : RegState) (uid a b : Nat) :
    (recordTraffic s uid a b).1.runningServers = s.runningServers := by
  unfold recordTraffic
  cases hl : alookup s.userMetrics uid with
  | some mv => cases mv <;> simp [hl]
  | none => simp [hl]

theorem recordIp_runningServers (s : RegState) (uid : Nat)
    (p : Option (String × Nat)) :
    (recordIp s uid p).1.runningServers = s.runningServers := by
  unfold recordIp
  cases p with
  | none => rfl
  | some pr =>
    cases hl : alookup s.userMetrics uid with
    | some mv => cases mv <;> simp [hl]
    | none => simp [hl]

theorem getTcpLimiter_runningServers (s : RegState) (uid : Nat) :
    (getTcpLimiter s uid).2.runningServers = s.runningServers := by
  unfold getTcpLimiter
  cases hl : alookup s.userLimiters uid <;> simp [hl]

theorem incrTcpConnNum_runningServers (s : RegState) (uid n : Nat) :
    (incrTcpConnNum s uid n).1.runningServers = s.runningServers := by
  unfold incrTcpConnNum
  cases hl : alookup s.userLimiters uid with
  | some e =>
    cases he : e.tcp <;> simp [getTcpLimiter, hl, he]
  | none => simp [getTcpLimiter, hl]

theorem flushLoop_runningServers (l : List (Nat × Option Metric)) (s : RegState) :
    (flushLoop l s).1.runningServers = s.runningServers := by
  induction l generalizing s with
  | nil => rfl
  | cons p rest ih =>
    obtain ⟨uid, mv⟩ := p
    cases mv with
    | none => rfl
    | some m =>
      by_cases hpos : m.uploadTraffic + m.downloadTraffic > 0
      · simp only [flushLoop, hpos, if_true]
        cases hs : alookup s.snapshots uid with
        | none => rfl
        | some sn =>
          cases hg : getTcpLimiter s uid with
          | mk oc s1 =>
            have h1 : s1.runningServers = s.runningServers := by
              have := getTcpLimiter_runningServers s uid
              rw [hg] at this
              exact this
            cases oc with
            | none => simpa using h1
            | some c =>
              cases hf : flushLoop rest s1 with
              | mk s2 o =>
                have h2 : s2.runningServers = s1.runningServers := by
                  have := ih s1
                  rw [hf] at this
                  exact this
                cases o with
                | none => simp [hf, h2, h1]
                | some pr => simp [hf, h2, h1]
      · simp only [flushLoop, hpos, if_false]
        exact ih s

theorem flushMetricsToRemote_runningServers (s : RegState) (ok : Bool) :
    (flushMetricsToRemote s ok).state.runningServers = s.runningServers := by
  unfold flushMetricsToRemote
  cases hf : flushLoop s.userMetrics s with
  | mk s1 o =>
    have h1 : s1.runningServers = s.runningServers := by
      have := flushLoop_runningServers s.userMetrics s
      rw [hf] at this
      exact this
    cases o with
    | none => simpa using h1
    | some pr =>
      obtain ⟨reps, ids⟩ := pr
      cases ok <;> simp [h1]

theorem totalConnLoop_runningServers (rows : List (Nat × Snapshot))
    (active : List Nat) (s : RegState) :
    (totalConnLoop rows active s).2.runningServers = s.runningServers := by
  induction rows generalizing s with
  | nil => rfl
  | cons p rest ih =>
    obtain ⟨uid, sn⟩ := p
    by_cases hm : uid ∈ active
    · simp only [totalConnLoop, hm, if_true]
      cases hg : getTcpLimiter s uid with
      | mk oc s1 =>
        have h1 : s1.runningServers = s.runningServers := by
          have := getTcpLimiter_runningServers s uid
          rw [hg] at this
          exact this
        cases oc with
        | none => simpa using h1
        | some c =>
          cases hf : totalConnLoop rest active s1 with
          | mk o s2 =>
            have h2 : s2.runningServers = s1.runningServers := by
              have := ih s1
              rw [hf] at this
              exact this
            cases o with
            | none => simp [hf, h2, h1]
            | some n => simp [hf, h2, h1]
    · simp only [totalConnLoop, hm, if_false]
      exact ih s

theorem getTotalConnectionCount_runningServers (s : RegState) :
    (getTotalConnectionCount s).2.runningServers = s.runningServers :=
  totalConnLoop_runningServers s.snapshots s.activeUserIds s

theorem setTrafficLimiter_runningServers (s : RegState) (uid v : Nat) :
    (setTrafficLimiter s uid v).runningServers = s.runningServers := rfl

theorem setTcpLimiter_runningServers (s : RegState) (uid : Nat) :
    (setTcpLimiter s uid).runningServers = s.runningServers := rfl

theorem setMetrics_runningServers (s : RegState) (uid : Nat) (m : Metric) :
    (setMetrics s uid m).runningServers = s.runningServers := rfl

theorem startListeners_lookup_self (s : RegState) (u : UserConf) :
    alookup (startListeners s u).runningServers u.user_id
      = some ⟨some s.nextHandle, some (s.nextHandle + 1)⟩ := by
  unfold startListeners
  simp only [setMetrics_runningServers, setTcpLimiter_runningServers,
    setTrafficLimiter_runningServers]
  rw [setUdpServer_lookup_self]
  have ht : tcpHandleOf (setTcpServer { s with nextHandle := s.nextHandle + 2 } u.user_id s.nextHandle) u.user_id = some s.nextHandle := by
    unfold tcpHandleOf
    rw [setTcpServer_lookup_self]
  rw [ht]

theorem startListeners_lookup_ne (s : RegState) (u : UserConf) (t : Nat)
    (hne : t ≠ u.user_id) :
    alookup (startListeners s u).runningServers t
      = alookup s.runningServers t := by
  unfold startListeners
  simp only [setMetrics_runningServers, setTcpLimiter_runningServers,
    setTrafficLimiter_runningServers]
  rw [setUdpServer_lookup_ne _ _ _ _ hne, setTcpServer_lookup_ne _ _ _ _ hne]

theorem startListeners_closedLog_of_not_running (s : RegState) (u : UserConf)
    (h : alookup s.runningServers u.user_id = none) :
    (startListeners s u).closedLog = s.closedLog := by
  unfold startListeners
  simp only [setMetrics, setTcpLimiter, setTrafficLimiter]
  rw [setUdpServer_closedLog, setTcpServer_closedLog]
  have h2 : tcpHandleOf { s with nextHandle := s.nextHandle + 2 } u.user_id = none := by
    simp [tcpHandleOf, h]
  have h3 : udpHandleOf (setTcpServer { s with nextHandle := s.nextHandle + 2 } u.user_id s.nextHandle) u.user_id = none := by
    unfold udpHandleOf
    rw [setTcpServer_lookup_self]
    simp [udpHandleOf, h]
  simp [h2, h3]

theorem startListeners_metrics_self (s : RegState) (u : UserConf) :
    metricsOf (startListeners s u) u.user_id = some (some initNewMetric) := by
  unfold startListeners metricsOf setMetrics
  simp [alookup_aset_self]

theorem checkUserServer_noop (s : RegState) (snap : Snapshot) (u : UserConf)
    (hm : snap.method = u.method) (hp : snap.port = u.port)
    (hpw : snap.password = u.password) (hen : u.enable = true) :
    checkUserServer s snap u = (s, false) := by
  simp [checkUserServer, hm, hp, hpw, hen]

theorem checkUserServer_closes (s : RegState) (snap : Snapshot) (u : UserConf)
    (h : snap.method ≠ u.method ∨ snap.port ≠ u.port ∨
      snap.password ≠ u.password ∨ u.enable = false) :
    checkUserServer s snap u = closeServer s u.user_id := by
  unfold checkUserServer
  by_cases h1 : snap.method ≠ u.method ∨ u.enable = false
  · simp [h1]
  · push_neg at h1
    by_cases h2 : snap.port ≠ u.port ∨ u.enable = false
    · simp [h1.1, h2]
    · push_neg at h2
      by_cases h3 : snap.password ≠ u.password ∨ u.enable = false
      · simp [h1.1, h2.1, h3]
      · push_neg at h3
        rcases h with hc | hc | hc | hc
        · exact absurd h1.1 hc
        · exact absurd h2.1 hc
        · exact absurd h3.1 hc
        · exact absurd hc h1.2

theorem closeServer_lookup_ne (s : RegState) (uid t : Nat) (hne : t ≠ uid) :
    alookup (closeServer s uid).1.runningServers t
      = alookup s.runningServers t := by
  rw [closeServer_runningServers]
  exact alookup_aremove_ne _ _ _ hne

theorem checkUserServer_lookup_ne (s : RegState) (snap : Snapshot)
    (u : UserConf) (t : Nat) (hne : t ≠ u.user_id) :
    alookup (checkUserServer s snap u).1.runningServers t
      = alookup s.runningServers t := by
  unfold checkUserServer
  split_ifs <;> first
    | rfl
    | exact closeServer_lookup_ne s u.user_id t hne

theorem initServer_lookup_ne (s : RegState) (snap : Snapshot) (u : UserConf)
    (b : Bool) (t : Nat) (hne : t ≠ u.user_id) :
    alookup (initServer s snap u b).1.runningServers t
      = alookup s.runningServers t := by
  unfold initServer
  by_cases hr : isRunning s u.user_id = true
  · simp only [hr, if_true]
    cases hck : checkUserServer s snap u with
    | mk s1 r1 =>
      have h1 : alookup s1.runningServers t = alookup s.runningServers t := by
        have := checkUserServer_lookup_ne s snap u t hne
        rw [hck] at this
        exact this
      cases r1 with
      | true => simpa using h1
      | false =>
        simp only [Bool.false_eq_true, if_false]
        by_cases h2 : (isRunning s1 u.user_id || !u.enable) = true
        · simp [h2, h1]
        · simp only [h2, if_false]
          cases b with
          | false => simpa using h1
          | true =>
            simp only [Bool.not_true, Bool.false_eq_true, if_false]
            rw [startListeners_lookup_ne _ _ _ hne]
            exact h1
  · simp only [hr, if_false]
    by_cases h2 : (isRunning s u.user_id || !u.enable) = true
    · simp [h2]
    · cases b with
      | false => simp [h2]
      | true =>
        simp [h2]
        exact startListeners_lookup_ne _ _ _ hne

theorem isRunning_initServer_ne (s : RegState) (snap : Snapshot) (u : UserConf)
    (b : Bool) (t : Nat) (hne : t ≠ u.user_id) :
    isRunning (initServer s snap u b).1 t = isRunning s t := by
  unfold isRunning
  rw [initServer_lookup_ne _ _ _ _ _ hne]

theorem initServer_disabled (s : RegState) (snap : Snapshot) (u : UserConf)
    (b : Bool) (hen : u.enable = false) :
    isRunning (initServer s snap u b).1 u.user_id = false := by
  unfold initServer
  by_cases hr : isRunning s u.user_id = true
  · have hc : checkUserServer s snap u = closeServer s u.user_id :=
      checkUserServer_closes _ _ _ (Or.inr (Or.inr (Or.inr hen)))
    simp only [hr, if_true, hc]
    by_cases hcr : (closeServer s u.user_id).2 = true
    · simp [hcr, isRunning_closeServer_self]
    · simp [hcr, isRunning_closeServer_self, hen]
  · simp only [hr, if_false]
    simp only [hen, Bool.not_false, Bool.or_true, if_true, if_false]
    simp only [Bool.not_eq_true] at hr
    simp [hr]

theorem sweepOne_isRunning_ne (s : RegState) (u : UserConf) (b : Bool)
    (t : Nat) (hne : t ≠ u.user_id) :
    isRunning (sweepOne s u b) t = isRunning s t := by
  unfold sweepOne
  cases hl : alookup s.snapshots u.user_id with
  | some sn => exact isRunning_initServer_ne _ _ _ _ _ hne
  | none =>
    rw [isRunning_initServer_ne _ _ _ _ _ hne]
    rfl

theorem sweepOne_disabled (s : RegState) (u : UserConf) (b : Bool)
    (hen : u.enable = false) :
    isRunning (sweepOne s u b) u.user_id = false := by
  unfold sweepOne
  cases hl : alookup s.snapshots u.user_id with
  | some sn => exact initServer_disabled _ _ _ _ hen
  | none => exact initServer_disabled _ _ _ _ hen

theorem sweep_keeps_disabled_dead (l : List (UserConf × Bool)) (s : RegState)
    (tid : Nat) (hdead : isRunning s tid = false)
    (hall : ∀ p ∈ l, p.1.user_id = tid → p.1.enable = false) :
    isRunning (sweep s l) tid = false := by
  induction l generalizing s with
  | nil => exact hdead
  | cons p rest ih =>
    obtain ⟨u, b⟩ := p
    by_cases hu : u.user_id = tid
    · have hen : u.enable = false := hall (u, b) (List.mem_cons_self _ _) hu
      have h1 : isRunning (sweepOne s u b) tid = false := by
        rw [← hu]
        exact sweepOne_disabled s u b hen
      exact ih (sweepOne s u b) h1 (fun q hq => hall q (List.mem_cons_of_mem _ hq))
    · have h1 : isRunning (sweepOne s u b) tid = false := by
        rw [sweepOne_isRunning_ne s u b tid (fun hc => hu hc.symm)]
        exact hdead
      exact ih (sweepOne s u b) h1 (fun q hq => hall q (List.mem_cons_of_mem _ hq))

theorem WF_of_run_eq {s s2 : RegState}
    (h : s2.runningServers = s.runningServers) (hWF : WFhandles s) :
    WFhandles s2 := by
  intro uid e hl
  rw [h] at hl
  exact hWF uid e hl

theorem WF_setTcpServer (s : RegState) (uid h : Nat) (hWF : WFhandles s) :
    WFhandles (setTcpServer s uid h) := by
  intro t e hl
  by_cases ht : t = uid
  · subst ht
    rw [setTcpServer_lookup_self] at hl
    cases hl
    simp
  · rw [setTcpServer_lookup_ne _ _ _ _ ht] at hl
    exact hWF t e hl

theorem WF_setUdpServer (s : RegState) (uid h : Nat) (hWF : WFhandles s) :
    WFhandles (setUdpServer s uid h) := by
  intro t e hl
  by_cases ht : t = uid
  · subst ht
    rw [setUdpServer_lookup_self] at hl
    cases hl
    simp
  · rw [setUdpServer_lookup_ne _ _ _ _ ht] at hl
    exact hWF t e hl

theorem WF_closeServer (s : RegState) (uid : Nat) (hWF : WFhandles s) :
    WFhandles (closeServer s uid).1 := by
  intro t e hl
  rw [closeServer_runningServers] at hl
  by_cases ht : t = uid
  · subst ht
    rw [alookup_aremove_self] at hl
    cases hl
  · rw [alookup_aremove_ne _ _ _ ht] at hl
    exact hWF t e hl

theorem WF_checkUserServer (s : RegState) (snap : Snapshot) (u : UserConf)
    (hWF : WFhandles s) : WFhandles (checkUserServer s snap u).1 := by
  unfold checkUserServer
  split_ifs <;> first
    | exact hWF
    | exact WF_closeServer s u.user_id hWF

theorem WF_startListeners (s : RegState) (u : UserConf) (hWF : WFhandles s) :
    WFhandles (startListeners s u) := by
  intro t e hl
  by_cases ht : t = u.user_id
  · subst ht
    rw [startListeners_lookup_self] at hl
    cases hl
    simp
  · rw [startListeners_lookup_ne _ _ _ ht] at hl
    exact hWF t e hl

theorem WF_initServer (s : RegState) (snap : Snapshot) (u : UserConf)
    (b : Bool) (hWF : WFhandles s) : WFhandles (initServer s snap u b).1 := by
  unfold initServer
  by_cases hr : isRunning s u.user_id = true
  · simp only [hr, if_true]
    have hWFc := WF_checkUserServer s snap u hWF
    cases hck : checkUserServer s snap u with
    | mk s1 r1 =>
      rw [hck] at hWFc
      cases r1 with
      | true => simpa using hWFc
      | false =>
        by_cases h2 : (isRunning s1 u.user_id || !u.enable) = true
        · simp [h2]
          exact hWFc
        · cases b with
          | false => simp [h2]; exact hWFc
          | true =>
            simp [h2]
            exact WF_startListeners s1 u hWFc
  · simp only [hr, if_false]
    by_cases h2 : (isRunning s u.user_id || !u.enable) = true
    · simp [h2]
      exact hWF
    · cases b with
      | false => simp [h2]; exact hWF
      | true =>
        simp [h2]
        exact WF_startListeners s u hWF

theorem WF_applyOp (s : RegState) (op : Op) (hWF : WFhandles s)
    (hsafe : safeOp s op = true) : WFhandles (applyOp s op) := by
  cases op with
  | readTcp uid =>
    have hs := getEntry_of_isRunning s uid hsafe
    exact WF_of_run_eq (by simp [applyOp, getTcpServer, hs]) hWF
  | readUdp uid =>
    have hs := getEntry_of_isRunning s uid hsafe
    exact WF_of_run_eq (by simp [applyOp, getUdpServer, hs]) hWF
  | installTcp uid h => exact WF_setTcpServer s uid h hWF
  | installUdp uid h => exact WF_setUdpServer s uid h hWF
  | stop uid => exact WF_closeServer s uid hWF
  | start snap u b => exact WF_initServer s snap u b hWF
  | traffic uid a b => exact WF_of_run_eq (recordTraffic_runningServers s uid a b) hWF
  | peer uid p => exact WF_of_run_eq (recordIp_runningServers s uid p) hWF
  | flushOp ok => exact WF_of_run_eq (flushMetricsToRemote_runningServers s ok) hWF
  | incrConn uid n => exact WF_of_run_eq (incrTcpConnNum_runningServers s uid n) hWF
  | totalConn => exact WF_of_run_eq (getTotalConnectionCount_runningServers s) hWF

theorem WF_applyOps (s : RegState) (ops : List Op) (hWF : WFhandles s)
    (hsafe : safeOps s ops = true) : WFhandles (applyOps s ops) := by
  induction ops generalizing s with
  | nil => exact hWF
  | cons op rest ih =>
    simp only [safeOps, Bool.and_eq_true] at hsafe
    exact ih (applyOp s op) (WF_applyOp s op hWF hsafe.1) hsafe.2

theorem isRunning_eq_hasHandle_of_WF (s : RegState) (uid : Nat)
    (hWF : WFhandles s) : isRunning s uid = hasHandle s uid := by
  unfold isRunning hasHandle
  cases hl : alookup s.runningServers uid with
  | none => rfl
  | some e =>
    have := hWF uid e hl
    simp [this]

theorem getTcpLimiter_of_entry (s : RegState) (uid : Nat) (e : LimEntry)
    (hl : alookup s.userLimiters uid = some e) :
    getTcpLimiter s uid = (e.tcp, s) := by
  simp [getTcpLimiter, hl]

theorem flushLoop_fst_of_some (l : List (Nat × Option Metric)) (s : RegState)
    (h : (flushLoop l s).2.isSome = true) : (flushLoop l s).1 = s := by
  induction l generalizing s with
  | nil => rfl
  | cons p rest ih =>
    obtain ⟨uid, mv⟩ := p
    cases mv with
    | none => simp [flushLoop] at h
    | some m =>
      by_cases hpos : m.uploadTraffic + m.downloadTraffic > 0
      · simp only [flushLoop, hpos, if_true] at h ⊢
        cases hs : alookup s.snapshots uid with
        | none =>
          rw [hs] at h
        | some sn =>
          rw [hs] at h
          dsimp only at h ⊢
          cases hgl : alookup s.userLimiters uid with
          | none =>
            rw [show getTcpLimiter s uid = (none, { s with userLimiters := aset s.userLimiters uid ⟨none, none⟩ }) from by simp [getTcpLimiter, hgl]] at h
            simp at h
          | some e =>
            rw [getTcpLimiter_of_entry s uid e hgl] at h ⊢
            cases he : e.tcp with
            | none =>
              rw [he] at h
            | some c =>
              rw [he] at h
              dsimp only at h ⊢
              cases hf : flushLoop rest s with
              | mk s2 o =>
                rw [hf] at h
                have ihs := ih s
                rw [hf] at ihs
                cases o with
                | none => simp at h
                | some pr =>
                  obtain ⟨reps, ids⟩ := pr
                  simpa using ihs (by simp)
      · simp only [flushLoop, hpos, if_false] at h ⊢
        exact ih s h

theorem posIds_cons_pos (uid : Nat) (m : Metric)
    (rest : List (Nat × Option Metric))
    (hpos : 0 < m.uploadTraffic + m.downloadTraffic) :
    posIds ((uid, some m) :: rest) = uid :: posIds rest := by
  unfold posIds
  rw [List.filter_cons]
  simp [hpos]

theorem posIds_cons_nonpos (uid : Nat) (m : Metric)
    (rest : List (Nat × Option Metric))
    (hpos : ¬0 < m.uploadTraffic + m.downloadTraffic) :
    posIds ((uid, some m) :: rest) = posIds rest := by
  unfold posIds
  rw [List.filter_cons]
  simp [hpos]

theorem posIds_cons_none (uid : Nat) (rest : List (Nat × Option Metric)) :
    posIds ((uid, none) :: rest) = posIds rest := by
  unfold posIds
  rw [List.filter_cons]
  simp

theorem reportsOf_cons_pos (s : RegState) (uid : Nat) (m : Metric)
    (rest : List (Nat × Option Metric))
    (hpos : 0 < m.uploadTraffic + m.downloadTraffic) :
    reportsOf s ((uid, some m) :: rest)
      = ⟨uid, m.uploadTraffic, m.downloadTraffic, m.ipList, tcpConnOf s uid⟩ :: reportsOf s rest := by
  simp [reportsOf, hpos]

theorem reportsOf_cons_nonpos (s : RegState) (uid : Nat) (m : Metric)
    (rest : List (Nat × Option Metric))
    (hpos : ¬0 < m.uploadTraffic + m.downloadTraffic) :
    reportsOf s ((uid, some m) :: rest) = reportsOf s rest := by
  simp [reportsOf, hpos]

theorem flushLoop_char (l : List (Nat × Option Metric)) (s : RegState)
    (hWF : ∀ p ∈ l, (p.2).isSome = true)
    (hres : ∀ uid m, (uid, some m) ∈ l → 0 < m.uploadTraffic + m.downloadTraffic →
      (alookup s.snapshots uid).isSome = true ∧ hasTcpLimiter s uid = true) :
    flushLoop l s = (s, some (reportsOf s l, posIds l)) := by
  induction l with
  | nil => rfl
  | cons p rest ih =>
    obtain ⟨uid, mv⟩ := p
    cases mv with
    | none =>
      have := hWF (uid, none) (List.mem_cons_self _ _)
      simp at this
    | some m =>
      have ihr := ih (fun q hq => hWF q (List.mem_cons_of_mem _ hq))
        (fun t m2 hm hp => hres t m2 (List.mem_cons_of_mem _ hm) hp)
      by_cases hpos : m.uploadTraffic + m.downloadTraffic > 0
      · obtain ⟨hsnap, hlim⟩ :=
          hres uid m (List.mem_cons_self _ _) hpos
        cases hs : alookup s.snapshots uid with
        | none => rw [hs] at hsnap; simp at hsnap
        | some sn =>
          cases hgl : alookup s.userLimiters uid with
          | none => simp [hasTcpLimiter, hgl] at hlim
          | some e =>
            cases he : e.tcp with
            | none => simp [hasTcpLimiter, hgl, he] at hlim
            | some c =>
              simp only [flushLoop, hpos, if_true]
              rw [hs]
              dsimp only
              rw [getTcpLimiter_of_entry s uid e hgl, he]
              dsimp only
              rw [ihr]
              have hconn : tcpConnOf s uid = c := by
                simp [tcpConnOf, hgl, he]
              rw [reportsOf_cons_pos s uid m rest hpos,
                posIds_cons_pos uid m rest hpos, hconn]
      · simp only [flushLoop, hpos, if_false]
        rw [ihr, reportsOf_cons_nonpos s uid m rest hpos,
          posIds_cons_nonpos uid m rest hpos]

theorem reportsOf_map_ids (s : RegState) (l : List (Nat × Option Metric)) :
    (reportsOf s l).map Report.user_id = posIds l := by
  induction l with
  | nil => rfl
  | cons p rest ih =>
    obtain ⟨uid, mv⟩ := p
    cases mv with
    | none => rw [reportsOf, posIds_cons_none]; exact ih
    | some m =>
      by_cases hpos : 0 < m.uploadTraffic + m.downloadTraffic
      · rw [reportsOf_cons_pos s uid m rest hpos, posIds_cons_pos uid m rest hpos]
        simp only [List.map_cons, ih]
      · rw [reportsOf_cons_nonpos s uid m rest hpos,
          posIds_cons_nonpos uid m rest hpos]
        exact ih

theorem reportsOf_mem (s : RegState) (l : List (Nat × Option Metric))
    (rep : Report) (hr : rep ∈ reportsOf s l) :
    (rep.user_id, some (⟨rep.upload_traffic, rep.download_traffic, rep.ip_list⟩ : Metric)) ∈ l
      ∧ rep.tcp_conn_num = tcpConnOf s rep.user_id
      ∧ 0 < rep.upload_traffic + rep.download_traffic := by
  induction l with
  | nil => simp [reportsOf] at hr
  | cons p rest ih =>
    obtain ⟨uid, mv⟩ := p
    cases mv with
    | none =>
      simp only [reportsOf] at hr
      obtain ⟨h1, h2, h3⟩ := ih hr
      exact ⟨List.mem_cons_of_mem _ h1, h2, h3⟩
    | some m =>
      by_cases hpos : 0 < m.uploadTraffic + m.downloadTraffic
      · simp only [reportsOf, hpos, if_true] at hr
        rcases List.mem_cons.1 hr with heq | hmem
        · subst heq
          exact ⟨List.mem_cons_self _ _, rfl, hpos⟩
        · obtain ⟨h1, h2, h3⟩ := ih hmem
          exact ⟨List.mem_cons_of_mem _ h1, h2, h3⟩
      · simp only [reportsOf, hpos, if_false] at hr
        obtain ⟨h1, h2, h3⟩ := ih hr
        exact ⟨List.mem_cons_of_mem _ h1, h2, h3⟩

theorem resetMetrics_lookup_not_mem (ids : List Nat)
    (ms : List (Nat × Option Metric)) (uid : Nat) (h : uid ∉ ids) :
    alookup (resetMetrics ms ids) uid = alookup ms uid := by
  induction ids generalizing ms with
  | nil => rfl
  | cons u0 rest ih =>
    have h0 : uid ≠ u0 := fun hc => h (hc ▸ List.mem_cons_self _ _)
    have hr : uid ∉ rest := fun hc => h (List.mem_cons_of_mem _ hc)
    simp only [resetMetrics]
    rw [ih _ hr, alookup_aset_ne _ _ _ _ h0]

theorem resetMetrics_lookup_mem (ids : List Nat)
    (ms : List (Nat × Option Metric)) (uid : Nat) (h : uid ∈ ids) :
    alookup (resetMetrics ms ids) uid = some (some initNewMetric) := by
  induction ids generalizing ms with
  | nil => simp at h
  | cons u0 rest ih =>
    by_cases hr : uid ∈ rest
    · simp only [resetMetrics]
      exact ih _ hr
    · have h0 : uid = u0 := by
        rcases List.mem_cons.1 h with heq | hmem
        · exact heq
        · exact absurd hmem hr
      subst h0
      simp only [resetMetrics]
      rw [resetMetrics_lookup_not_mem _ _ _ hr, alookup_aset_self]

theorem flushLoop_all_zero (l : List (Nat × Option Metric)) (s : RegState)
    (hz : ∀ p ∈ l, ∃ m, p.2 = some m ∧ m.uploadTraffic + m.downloadTraffic = 0) :
    flushLoop l s = (s, some ([], [])) := by
  induction l with
  | nil => rfl
  | cons p rest ih =>
    obtain ⟨uid, mv⟩ := p
    obtain ⟨m, hm, hsum⟩ := hz (uid, mv) (List.mem_cons_self _ _)
    simp only at hm
    subst hm
    have hpos : ¬(m.uploadTraffic + m.downloadTraffic > 0) := by omega
    simp only [flushLoop, hpos, if_false]
    exact ih (fun q hq => hz q (List.mem_cons_of_mem _ hq))

theorem totalConnLoop_nil_active (rows : List (Nat × Snapshot)) (s : RegState) :
    totalConnLoop rows [] s = (some 0, s) := by
  induction rows with
  | nil => rfl
  | cons p rest ih =>
    obtain ⟨uid, sn⟩ := p
    simp only [totalConnLoop, List.not_mem_nil, if_false]
    exact ih

/-- Claim C1 counterexample: from the empty state, the single public
operation of reading the `tcp_server` getter on the stopped tenant 1
leaves `is_running 1` true although no handle (TCP or UDP) is registered
for tenant 1 — the `defaultdict` read created an empty registry entry, so
the claimed equivalence fails for this operation sequence. -/
theorem getter_read_breaks_liveness_cex :
    isRunning (applyOps initState [Op.readTcp 1]) 1 = true
      ∧ hasHandle (applyOps initState [Op.readTcp 1]) 1 = false := by
  decide

/-- Claim C1 (amended): `is_running(tenant)` holds iff a registry entry
exists for the tenant; after any sequence of public operations in which
the `tcp_server`/`udp_server` getters are never read on a not-live tenant,
this coincides with the tenant having at least one live handle.  (A getter
read on a stopped tenant creates an empty entry, making `is_running` true
with zero handles — see the counterexample.) -/
theorem is_live_iff_handle_when_getters_guarded (s : RegState) (ops : List Op)
    (uid : Nat) (hWF : WFhandles s) (hsafe : safeOps s ops = true) :
    isRunning (applyOps s ops) uid = hasHandle (applyOps s ops) uid :=
  isRunning_eq_hasHandle_of_WF _ _ (WF_applyOps s ops hWF hsafe)

/-- Witness for the amended C1 theorem: a concrete guarded sequence
(install, guarded read, a start, a stop, a flush) from the empty state. -/
theorem is_live_iff_handle_when_getters_guarded_witness :
    isRunning (applyOps initState [Op.installTcp 1 5, Op.readTcp 1, Op.start ⟨8000, "aes-256-gcm", "pw", true⟩ ⟨2, 8000, "aes-256-gcm", "pw", true, 0⟩ true, Op.stop 1, Op.flushOp true]) 2
      = hasHandle (applyOps initState [Op.installTcp 1 5, Op.readTcp 1, Op.start ⟨8000, "aes-256-gcm", "pw", true⟩ ⟨2, 8000, "aes-256-gcm", "pw", true, 0⟩ true, Op.stop 1, Op.flushOp true]) 2 :=
  is_live_iff_handle_when_getters_guarded initState
    [Op.installTcp 1 5, Op.readTcp 1, Op.start ⟨8000, "aes-256-gcm", "pw", true⟩ ⟨2, 8000, "aes-256-gcm", "pw", true, 0⟩ true, Op.stop 1, Op.flushOp true] 2
    (fun uid e h => by simp [initState, alookup] at h) (by decide)

/-- Claim C4 counterexample: on a tenant on which start was never called
(the empty state), `record_traffic(1, 10, 20)` raises `KeyError` (the
`defaultdict` read of `metrics` returns an empty dict with no
`upload_traffic` key) and leaves an empty metrics record, so
`record_traffic` does not "never fail" for every tenant. -/
theorem record_traffic_uninitialised_raises_cex :
    (recordTraffic initState 1 10 20).2 = true
      ∧ metricsOf (recordTraffic initState 1 10 20).1 1 = some none := by
  decide

/-- Claim C4 (amended): for a tenant whose metrics record is initialised
(as every successfully started tenant's is), `record_traffic` does not
fail and adds `up` to the upload counter and `down` to the download
counter, leaving the IP set untouched; on a tenant with no initialised
record it raises `KeyError` (see the counterexample). -/
theorem record_traffic_adds_when_initialised (s : RegState) (uid a b : Nat)
    (m : Metric) (h : metricsOf s uid = some (some m)) :
    recordTraffic s uid a b
      = ({ s with userMetrics := aset s.userMetrics uid (some ⟨m.uploadTraffic + a, m.downloadTraffic + b, m.ipList⟩) }, false) := by
  unfold metricsOf at h
  unfold recordTraffic
  rw [h]

/-- Witness for the amended C4 theorem: `record_traffic(1,10,20)` then
`record_traffic(1,5,0)` from a zeroed record yields counters 15 and 20. -/
theorem record_traffic_adds_when_initialised_witness :
    recordTraffic (recordTraffic demoLiveState 1 10 20).1 1 5 0
      = ({ (recordTraffic demoLiveState 1 10 20).1 with userMetrics := aset (recordTraffic demoLiveState 1 10 20).1.userMetrics 1 (some ⟨15, 20, []⟩) }, false) :=
  record_traffic_adds_when_initialised (recordTraffic demoLiveState 1 10 20).1 1 5 0 ⟨10, 20, []⟩ rfl

/-- Claim C6: calling `init_server` on an already-live tenant whose
desired config matches the live snapshot (same method, port, password,
and enabled) returns the state unchanged with no exception: handle
identities, metrics, address set and limiter instances are untouched. -/
theorem init_server_noop_on_matching_config (s : RegState) (snap : Snapshot)
    (u : UserConf) (b : Bool) (hrun : isRunning s u.user_id = true)
    (hm : snap.method = u.method) (hp : snap.port = u.port)
    (hpw : snap.password = u.password) (hen : u.enable = true) :
    initServer s snap u b = (s, false) := by
  unfold initServer
  rw [checkUserServer_noop s snap u hm hp hpw hen]
  simp [hrun]

/-- Witness for C6: a live tenant restarted with its own configuration. -/
theorem init_server_noop_on_matching_config_witness :
    initServer demoLiveState ⟨8000, "aes-256-gcm", "pw", true⟩ ⟨1, 8000, "aes-256-gcm", "pw", true, 0⟩ true
      = (demoLiveState, false) :=
  init_server_noop_on_matching_config demoLiveState ⟨8000, "aes-256-gcm", "pw", true⟩
    ⟨1, 8000, "aes-256-gcm", "pw", true, 0⟩ true rfl rfl rfl rfl rfl

/-- Claim C7: for every tenant whose desired config has `enable = false`,
after a full sweep containing that tenant's config (and in which every
config carrying its id is disabled), the tenant is not live: a live
disabled tenant is stopped by the reconcile check inside `init_server`,
and a not-live disabled one is never started. -/
theorem disabled_tenant_not_live_after_sweep (s : RegState)
    (l : List (UserConf × Bool)) (tid : Nat)
    (hmem : ∃ p ∈ l, p.1.user_id = tid)
    (hall : ∀ p ∈ l, p.1.user_id = tid → p.1.enable = false) :
    isRunning (sweep s l) tid = false := by
  induction l generalizing s with
  | nil =>
    obtain ⟨p, hp, _⟩ := hmem
    simp at hp
  | cons q rest ih =>
    obtain ⟨u, b⟩ := q
    by_cases hu : u.user_id = tid
    · have hen : u.enable = false := hall (u, b) (List.mem_cons_self _ _) hu
      have h1 : isRunning (sweepOne s u b) tid = false := by
        rw [← hu]
        exact sweepOne_disabled s u b hen
      exact sweep_keeps_disabled_dead rest (sweepOne s u b) tid h1
        (fun p hp => hall p (List.mem_cons_of_mem _ hp))
    · obtain ⟨p, hp, hpid⟩ := hmem
      rcases List.mem_cons.1 hp with heq | hmem2
      · rw [heq] at hpid
        exact absurd hpid hu
      · exact ih (sweepOne s u b) ⟨p, hmem2, hpid⟩
          (fun p2 hp2 => hall p2 (List.mem_cons_of_mem _ hp2))

/-- Witness for C7: a sweep over a disabled tenant 1 and an enabled
tenant 2 from the empty state leaves tenant 1 not live. -/
theorem disabled_tenant_not_live_after_sweep_witness :
    isRunning (sweep initState [(⟨1, 8000, "aes-256-gcm", "pw", false, 0⟩, true), (⟨2, 8001, "aes-256-gcm", "pw2", true, 0⟩, true)]) 1 = false :=
  disabled_tenant_not_live_after_sweep initState
    [(⟨1, 8000, "aes-256-gcm", "pw", false, 0⟩, true), (⟨2, 8001, "aes-256-gcm", "pw2", true, 0⟩, true)] 1
    (by decide) (by decide)

/-- Claim C8: when `init_server` reaches its bind step on a not-live
enabled tenant and the bind fails (`OSError`, e.g. a port conflict), the
exception is caught: no exception propagates to the caller, the state is
returned unchanged and the tenant is left not-live — so a bulk start over
many tenants is not aborted by one tenant's bind failure. -/
theorem bind_failure_swallowed_not_live (s : RegState) (snap : Snapshot)
    (u : UserConf) (hnr : isRunning s u.user_id = false)
    (hen : u.enable = true) :
    initServer s snap u false = (s, false)
      ∧ isRunning (initServer s snap u false).1 u.user_id = false := by
  have h1 : initServer s snap u false = (s, false) := by
    unfold initServer
    simp [hnr, hen]
  refine ⟨h1, ?_⟩
  rw [h1]
  exact hnr

/-- Witness for C8: bind failure for a fresh tenant on the empty state. -/
theorem bind_failure_swallowed_not_live_witness :
    initServer initState ⟨8000, "aes-256-gcm", "pw", true⟩ ⟨1, 8000, "aes-256-gcm", "pw", true, 0⟩ false
      = (initState, false)
      ∧ isRunning (initServer initState ⟨8000, "aes-256-gcm", "pw", true⟩ ⟨1, 8000, "aes-256-gcm", "pw", true, 0⟩ false).1 1 = false :=
  bind_failure_swallowed_not_live initState ⟨8000, "aes-256-gcm", "pw", true⟩
    ⟨1, 8000, "aes-256-gcm", "pw", true, 0⟩ rfl rfl

/-- Claim C9: the `tcp_server`/`udp_server` setters close exactly the
previously registered handle for that (tenant, protocol) — the close log
grows by exactly the old handle when one was registered and by nothing
otherwise — then install the new handle as the single live handle for
that slot, leaving the other protocol's handle unchanged. -/
theorem setter_closes_previous_handle_once (s : RegState) (uid h : Nat) :
    ((setTcpServer s uid h).closedLog = s.closedLog ++ (tcpHandleOf s uid).toList
      ∧ tcpHandleOf (setTcpServer s uid h) uid = some h
      ∧ udpHandleOf (setTcpServer s uid h) uid = udpHandleOf s uid)
    ∧ ((setUdpServer s uid h).closedLog = s.closedLog ++ (udpHandleOf s uid).toList
      ∧ udpHandleOf (setUdpServer s uid h) uid = some h
      ∧ tcpHandleOf (setUdpServer s uid h) uid = tcpHandleOf s uid) := by
  refine ⟨⟨setTcpServer_closedLog s uid h, ?_, ?_⟩,
    ⟨setUdpServer_closedLog s uid h, ?_, ?_⟩⟩
  · unfold tcpHandleOf
    rw [setTcpServer_lookup_self]
  · unfold udpHandleOf
    rw [setTcpServer_lookup_self]
    rfl
  · unfold udpHandleOf
    rw [setUdpServer_lookup_self]
  · unfold tcpHandleOf
    rw [setUdpServer_lookup_self]
    rfl

/-- Claim C2: if the sink call of `flush_metrics_to_remote` fails after
the payload was built, no tenant's counters or address set are reset (the
state is returned exactly as it was), so a second flush with no
intervening traffic builds an identical payload, whatever the second
sink outcome. -/
theorem flush_sink_failure_no_reset (s : RegState) (p : List Report)
    (h : (flushMetricsToRemote s false).payload = some p) :
    (flushMetricsToRemote s false).state = s
      ∧ (flushMetricsToRemote (flushMetricsToRemote s false).state false).payload = some p
      ∧ (flushMetricsToRemote (flushMetricsToRemote s false).state true).payload = some p := by
  cases hf : flushLoop s.userMetrics s with
  | mk s1 o =>
    cases o with
    | none =>
      unfold flushMetricsToRemote at h
      rw [hf] at h
      simp at h
    | some pr =>
      obtain ⟨reps, ids⟩ := pr
      have hs1 : s1 = s := by
        have h2 := flushLoop_fst_of_some s.userMetrics s (by simp [hf])
        rw [hf] at h2
        exact h2
      rw [hs1] at hf
      have hp : reps = p := by
        unfold flushMetricsToRemote at h
        rw [hf] at h
        simpa using h
      subst hp
      have kfix : flushMetricsToRemote s false = ⟨s, some reps, true⟩ := by
        unfold flushMetricsToRemote
        rw [hf]
        rfl
      refine ⟨by rw [kfix], ?_, ?_⟩
      · rw [kfix]
        dsimp only
        rw [kfix]
      · rw [kfix]
        dsimp only
        unfold flushMetricsToRemote
        rw [hf]
        rfl

/-- Witness for C2: a failed flush over a tenant with traffic 100/0
leaves the state unchanged and is replayed identically. -/
theorem flush_sink_failure_no_reset_witness :
    (flushMetricsToRemote demoTrafficState false).state = demoTrafficState
      ∧ (flushMetricsToRemote (flushMetricsToRemote demoTrafficState false).state false).payload = some [⟨1, 100, 0, ["10.0.0.9"], 3⟩]
      ∧ (flushMetricsToRemote (flushMetricsToRemote demoTrafficState false).state true).payload = some [⟨1, 100, 0, ["10.0.0.9"], 3⟩] :=
  flush_sink_failure_no_reset demoTrafficState [⟨1, 100, 0, ["10.0.0.9"], 3⟩] rfl

/-- Claim C3: a successful flush reports exactly the tenants with
strictly positive `upload + download` (in metrics-dict order, with their
exact counters, address list and connection count), returns without
raising, then resets every reported tenant's record to zeroes (keeping
the record) while leaving every other record untouched, and replaces the
active id set with exactly the flushed ids. -/
theorem flush_success_reports_and_resets (s : RegState)
    (hWF : ∀ p ∈ s.userMetrics, (p.2).isSome = true)
    (hres : ∀ uid m, (uid, some m) ∈ s.userMetrics →
      0 < m.uploadTraffic + m.downloadTraffic →
      (alookup s.snapshots uid).isSome = true ∧ hasTcpLimiter s uid = true) :
    (flushMetricsToRemote s true).raised = false
      ∧ (flushMetricsToRemote s true).payload = some (reportsOf s s.userMetrics)
      ∧ (reportsOf s s.userMetrics).map Report.user_id = posIds s.userMetrics
      ∧ (∀ rep ∈ reportsOf s s.userMetrics,
          (rep.user_id, some (⟨rep.upload_traffic, rep.download_traffic, rep.ip_list⟩ : Metric)) ∈ s.userMetrics
            ∧ rep.tcp_conn_num = tcpConnOf s rep.user_id
            ∧ 0 < rep.upload_traffic + rep.download_traffic)
      ∧ (flushMetricsToRemote s true).state.activeUserIds = posIds s.userMetrics
      ∧ (∀ uid ∈ posIds s.userMetrics,
          metricsOf (flushMetricsToRemote s true).state uid = some (some initNewMetric))
      ∧ (∀ uid, uid ∉ posIds s.userMetrics →
          metricsOf (flushMetricsToRemote s true).state uid = metricsOf s uid) := by
  have hchar := flushLoop_char s.userMetrics s hWF hres
  have kfix : flushMetricsToRemote s true
      = ⟨{ s with userMetrics := resetMetrics s.userMetrics (posIds s.userMetrics), activeUserIds := posIds s.userMetrics }, some (reportsOf s s.userMetrics), false⟩ := by
    unfold flushMetricsToRemote
    rw [hchar]
    rfl
  rw [kfix]
  refine ⟨rfl, rfl, reportsOf_map_ids s s.userMetrics,
    fun rep hr => reportsOf_mem s s.userMetrics rep hr, rfl, ?_, ?_⟩
  · intro uid hm
    exact resetMetrics_lookup_mem (posIds s.userMetrics) s.userMetrics uid hm
  · intro uid hm
    exact resetMetrics_lookup_not_mem (posIds s.userMetrics) s.userMetrics uid hm

/-- Witness for C3: over tenants 1 (`upload=100, download=0`) and 2 (zero
traffic), only tenant 1 is reported, its record is zeroed, tenant 2's
record is untouched and the active set becomes exactly `[1]`. -/
theorem flush_success_reports_and_resets_witness :
    (flushMetricsToRemote demoTrafficState true).raised = false
      ∧ (flushMetricsToRemote demoTrafficState true).payload = some [⟨1, 100, 0, ["10.0.0.9"], 3⟩]
      ∧ (flushMetricsToRemote demoTrafficState true).state.activeUserIds = [1]
      ∧ metricsOf (flushMetricsToRemote demoTrafficState true).state 1 = some (some initNewMetric)
      ∧ metricsOf (flushMetricsToRemote demoTrafficState true).state 2 = metricsOf demoTrafficState 2 := by
  have h := flush_success_reports_and_resets demoTrafficState (by decide)
    (by
      intro uid m hm hpos
      simp [demoTrafficState] at hm
      rcases hm with ⟨h1, h2⟩ | ⟨h1, h2⟩ <;> subst h1 <;> exact ⟨by decide, by decide⟩)
  obtain ⟨h1, h2, _, _, h5, h6, h7⟩ := h
  refine ⟨h1, ?_, ?_, ?_, ?_⟩
  · rw [h2]
    rfl
  · rw [h5]
    rfl
  · exact h6 1 (by decide)
  · exact h7 2 (by decide)

/-- Claim C10: when every metrics record carries zero traffic, flush
still issues the one sink request with an empty data list, resets
nothing, replaces the active id set with the empty list, and the
total-connection-count query on the resulting state returns 0. -/
theorem flush_empty_batch_and_zero_active (s : RegState)
    (hz : ∀ p ∈ s.userMetrics, ∃ m, p.2 = some m ∧ m.uploadTraffic + m.downloadTraffic = 0) :
    flushMetricsToRemote s true = ⟨{ s with activeUserIds := [] }, some [], false⟩
      ∧ (getTotalConnectionCount { s with activeUserIds := ([] : List Nat) }).1 = some 0 := by
  have hloop := flushLoop_all_zero s.userMetrics s hz
  constructor
  · unfold flushMetricsToRemote
    rw [hloop]
    rfl
  · unfold getTotalConnectionCount
    rw [totalConnLoop_nil_active]

/-- Witness for C10: both tenants of the concrete state have zero
counters; flush posts an empty batch and empties the active set. -/
theorem flush_empty_batch_and_zero_active_witness :
    flushMetricsToRemote demoZeroState true = ⟨{ demoZeroState with activeUserIds := [] }, some [], false⟩
      ∧ (getTotalConnectionCount { demoZeroState with activeUserIds := ([] : List Nat) }).1 = some 0 :=
  flush_empty_batch_and_zero_active demoZeroState
    (by
      intro p hp
      simp [demoZeroState] at hp
      rcases hp with h | h <;> subst h <;> exact ⟨_, rfl, rfl⟩)

/-- Claim C5: starting a live tenant whose desired config differs from
the live snapshot in password (or method or port) closes the old TCP and
UDP handles (exactly those, in that order), installs fresh handles
distinct from the old ones, and resets the tenant's metrics record to
zero counters and an empty address set; no exception escapes. -/
theorem restart_on_drift_closes_and_resets (s : RegState) (snap : Snapshot)
    (u : UserConf) (ht hu2 : Nat)
    (hentry : alookup s.runningServers u.user_id = some ⟨some ht, some hu2⟩)
    (hdrift : snap.method ≠ u.method ∨ snap.port ≠ u.port ∨ snap.password ≠ u.password)
    (hen : u.enable = true)
    (hht : ht < s.nextHandle) (hhu : hu2 < s.nextHandle) :
    (initServer s snap u true).2 = false
      ∧ (initServer s snap u true).1.closedLog = s.closedLog ++ [ht] ++ [hu2]
      ∧ tcpHandleOf (initServer s snap u true).1 u.user_id = some s.nextHandle
      ∧ udpHandleOf (initServer s snap u true).1 u.user_id = some (s.nextHandle + 1)
      ∧ s.nextHandle ≠ ht ∧ s.nextHandle ≠ hu2
      ∧ s.nextHandle + 1 ≠ ht ∧ s.nextHandle + 1 ≠ hu2
      ∧ metricsOf (initServer s snap u true).1 u.user_id = some (some initNewMetric) := by
  have hrun : isRunning s u.user_id = true := by
    simp [isRunning, hentry]
  have hcheck : checkUserServer s snap u = closeServer s u.user_id :=
    checkUserServer_closes s snap u
      (by rcases hdrift with h | h | h
          · exact Or.inl h
          · exact Or.inr (Or.inl h)
          · exact Or.inr (Or.inr (Or.inl h)))
  have hclose := closeServer_of_entry s u.user_id ht hu2 hentry
  have hinit : initServer s snap u true
      = (startListeners { s with runningServers := aremove s.runningServers u.user_id, closedLog := s.closedLog ++ [ht] ++ [hu2] } u, false) := by
    unfold initServer
    rw [hcheck, hclose]
    simp [hrun, hen]
    intro hX
    simp [isRunning, alookup_aremove_self] at hX
  rw [hinit]
  have hlook := startListeners_lookup_self { s with runningServers := aremove s.runningServers u.user_id, closedLog := s.closedLog ++ [ht] ++ [hu2] } u
  refine ⟨rfl, ?_, ?_, ?_, by omega, by omega, by omega, by omega, ?_⟩
  · rw [startListeners_closedLog_of_not_running _ u (by simp [alookup_aremove_self])]
  · unfold tcpHandleOf
    rw [hlook]
  · unfold udpHandleOf
    rw [hlook]
  · exact startListeners_metrics_self _ u

/-- Witness for C5: the live tenant of the concrete state restarted with
a changed password: handles 5 and 6 are closed, fresh handles 7 and 8 are
installed, and the metrics record is zeroed. -/
theorem restart_on_drift_closes_and_resets_witness :
    (initServer demoLiveState ⟨8000, "aes-256-gcm", "pw", true⟩ ⟨1, 8000, "aes-256-gcm", "pwNEW", true, 0⟩ true).2 = false
      ∧ (initServer demoLiveState ⟨8000, "aes-256-gcm", "pw", true⟩ ⟨1, 8000, "aes-256-gcm", "pwNEW", true, 0⟩ true).1.closedLog = [5, 6]
      ∧ tcpHandleOf (initServer demoLiveState ⟨8000, "aes-256-gcm", "pw", true⟩ ⟨1, 8000, "aes-256-gcm", "pwNEW", true, 0⟩ true).1 1 = some 7
      ∧ udpHandleOf (initServer demoLiveState ⟨8000, "aes-256-gcm", "pw", true⟩ ⟨1, 8000, "aes-256-gcm", "pwNEW", true, 0⟩ true).1 1 = some 8
      ∧ (7 : Nat) ≠ 5 ∧ (7 : Nat) ≠ 6 ∧ (8 : Nat) ≠ 5 ∧ (8 : Nat) ≠ 6
      ∧ metricsOf (initServer demoLiveState ⟨8000, "aes-256-gcm", "pw", true⟩ ⟨1, 8000, "aes-256-gcm", "pwNEW", true, 0⟩ true).1 1 = some (some initNewMetric) :=
  restart_on_drift_closes_and_resets demoLiveState ⟨8000, "aes-256-gcm", "pw", true⟩
    ⟨1, 8000, "aes-256-gcm", "pwNEW", true, 0⟩ 5 6 rfl
    (Or.inr (Or.inr (by decide))) rfl (by decide) (by decide)

end Aioshadowsocks
